import Mathlib

/-!
# Verification of the SQL batch-insert generator (`app.py`)

Shallow embedding of the core of the repository: the value-to-SQL-literal
encoder (`format_sql_value`, `escape_mysql`), the chunked statement
generator (`generate_chunked_insert_queries`), the caller-level truncate
wrapping, and the column-rename uniqueness gate.

Python strings are modelled as Lean `String` (with `List Char` cores where
character-wise reasoning is needed).  Python scalar cell values are
modelled as a tagged union `PyVal` mirroring the runtime types that can
appear in a pandas cell and that the source dispatches on with
`isinstance`: `None`, float NaN, native `bool` (a subclass of `int` in
Python), numpy `np.bool_` (not an `int` subclass), integers, non-NaN
floats (carrying their `str()` rendering), `datetime.date`,
`datetime.datetime`, and `str`.
-/

/-- The single-quote character, U+0027. -/
def squote : Char := Char.ofNat 39

/-- A Python scalar cell value, as one of the runtime categories the source
dispatches on.  `float` carries the `str()` rendering of a non-NaN float;
`nan` is the floating-point NaN (recognized by `pd.isnull`).  `bool` is the
native Python `bool` (a subclass of `int`); `npBool` is numpy's `np.bool_`
(not an `int` subclass). -/
inductive PyVal where
  | none
  | nan
  | bool (b : Bool)
  | npBool (b : Bool)
  | int (n : Int)
  | float (repr : String)
  | date (y m d : Nat)
  | datetime (y mo d h mi s micro : Nat)
  | str (s : String)
deriving DecidableEq, Repr

/-- Left-pad the decimal rendering of `n` with zeros to width `w`. -/
def padZeros (w : Nat) (n : Nat) : String :=
  let s := toString n
  String.mk (List.replicate (w - s.length) '0') ++ s

/-- `datetime.date.isoformat`: `YYYY-MM-DD`. -/
def isoDate (y m d : Nat) : String :=
  padZeros 4 y ++ "-" ++ padZeros 2 m ++ "-" ++ padZeros 2 d

/-- `datetime.datetime.isoformat`: `YYYY-MM-DDTHH:MM:SS[.ffffff]`. -/
def isoDatetime (y mo d h mi s micro : Nat) : String :=
  isoDate y mo d ++ "T" ++ padZeros 2 h ++ ":" ++ padZeros 2 mi ++ ":" ++ padZeros 2 s
    ++ (if micro = 0 then "" else "." ++ padZeros 6 micro)

/-- Python `str(val)` on the modelled scalar values (`str(True) = "True"`,
`str` of a date is its ISO form, `str` of a datetime uses a space
separator). -/
def py_str : PyVal → String
  | .none => "None"
  | .nan => "nan"
  | .bool b => if b then "True" else "False"
  | .npBool b => if b then "True" else "False"
  | .int n => toString n
  | .float r => r
  | .date y m d => isoDate y m d
  | .datetime y mo d h mi s micro =>
      isoDate y mo d ++ " " ++ padZeros 2 h ++ ":" ++ padZeros 2 mi ++ ":" ++ padZeros 2 s
        ++ (if micro = 0 then "" else "." ++ padZeros 6 micro)
  | .str s => s

/-- `pd.isnull`: true exactly for `None` and float NaN among the modelled
values. -/
def pd_isnull : PyVal → Bool
  | .none => true
  | .nan => true
  | _ => false

/-- `isinstance(val, (datetime.date, datetime.datetime))`; `datetime.datetime`
is a subclass of `datetime.date`, both constructors match. -/
def is_datelike : PyVal → Bool
  | .date _ _ _ => true
  | .datetime _ _ _ _ _ _ _ => true
  | _ => false

/-- `isinstance(val, (int, float, np.integer, np.floating))`.  Native
Python `bool` is a subclass of `int`, so `.bool` matches here; numpy's
`np.bool_` is not a subclass of any of the four, so `.npBool` does not. -/
def is_numeric : PyVal → Bool
  | .int _ => true
  | .float _ => true
  | .nan => true
  | .bool _ => true
  | _ => false

/-- `isinstance(val, (bool, np.bool_))`. -/
def is_boolean : PyVal → Bool
  | .bool _ => true
  | .npBool _ => true
  | _ => false

/-- The Boolean payload of a boolean value (Python truthiness of the value
in the `'TRUE' if val else 'FALSE'` branch). -/
def bool_payload : PyVal → Bool
  | .bool b => b
  | .npBool b => b
  | _ => false

/-- Python `s.replace(old, new)` for a single-character pattern `old`:
one left-to-right pass over the input replacing each occurrence of `old`
by `new`. -/
def pyReplace1 (old : Char) (new : List Char) : List Char → List Char
  | [] => []
  | c :: rest => (if c = old then new else [c]) ++ pyReplace1 old new rest

/-- Character-level core of `escape_mysql` (src/app.py lines 17-22): the
five sequential `replace` calls, backslash first, in source order. -/
def escape_core (s : List Char) : List Char :=
  pyReplace1 '\r' ['\\', 'r']
    (pyReplace1 '\n' ['\\', 'n']
      (pyReplace1 '"' ['\\', '"']
        (pyReplace1 squote ['\\', squote]
          (pyReplace1 '\\' ['\\', '\\'] s))))

/-- `escape_mysql` (src/app.py lines 11-23): non-strings are first
converted with `str()`, then the five replacements are applied. -/
def escape_mysql (val : PyVal) : String :=
  let s := match val with
    | .str s => s
    | v => py_str v
  String.mk (escape_core s.data)

/-- `format_sql_value` (src/app.py lines 25-41), with the branches in
source order: null check, date/datetime check, numeric check, boolean
check, string fallback. -/
def format_sql_value (val : PyVal) : String :=
  if pd_isnull val then "NULL"
  else if is_datelike val then
    "'" ++ (match val with
      | .date y m d => isoDate y m d
      | .datetime y mo d h mi s micro => isoDatetime y mo d h mi s micro
      | _ => "") ++ "'"
  else if is_numeric val then py_str val
  else if is_boolean val then (if bool_payload val then "TRUE" else "FALSE")
  else "'" ++ escape_mysql val ++ "'"

/-- A loaded table: ordered column names and ordered rows, each row giving
its cell values in column order (as `df.iterrows` yields them). -/
structure DataFrame where
  columns : List String
  rows : List (List PyVal)
deriving Repr

/-- The chunk decomposition performed by
`for start in range(0, len(df), chunk_size): df.iloc[start:start+chunk_size]`:
contiguous slices of length `c`, the last one shorter.  Meaningful for
`c ≥ 1`; Python raises `ValueError` on step `0` before any chunk is made. -/
def chunksOf (c : Nat) : List α → List (List α)
  | [] => []
  | x :: xs => (x :: xs.take (c - 1)) :: chunksOf c (xs.drop (c - 1))
termination_by l => l.length
decreasing_by simp [List.length_drop]; omega

/-- The per-chunk statements built by `generate_chunked_insert_queries`
(src/app.py lines 47-65), before the final join; empty chunks are skipped
(`if not values_list: continue`). -/
def chunk_queries (df : DataFrame) (table_name : String) (chunk_size : Nat)
    (use_ignore : Bool) : List String :=
  let columns := String.intercalate ", " (df.columns.map (fun col => "`" ++ col ++ "`"))
  let insert_command := if use_ignore then "INSERT IGNORE INTO" else "INSERT INTO"
  (chunksOf chunk_size df.rows).filterMap (fun df_chunk =>
    let values_list := df_chunk.map (fun row =>
      "(" ++ String.intercalate ", " (row.map format_sql_value) ++ ")")
    if values_list.isEmpty then Option.none
    else Option.some (insert_command ++ " `" ++ table_name ++ "` (" ++ columns
      ++ ") VALUES\n  " ++ String.intercalate ",\n  " values_list ++ ";"))

/-- `generate_chunked_insert_queries` (src/app.py lines 43-67): the chunk
statements joined by the comment-rule separator. -/
def generate_chunked_insert_queries (df : DataFrame) (table_name : String)
    (chunk_size : Nat) (use_ignore : Bool) : String :=
  String.intercalate "\n\n-- -- -- -- -- -- -- -- -- --\n\n"
    (chunk_queries df table_name chunk_size use_ignore)

/-- Caller-level truncate wrapping (src/app.py lines 180-185):
`final_query_output` starts as the `TRUNCATE TABLE` statement plus blank
line when the flag is set, else empty, then the generator output is
appended. -/
def final_query_output (truncate_flag : Bool) (table_name : String)
    (generated_queries : String) : String :=
  (if truncate_flag then "TRUNCATE TABLE `" ++ table_name ++ "`;\n\n" else "")
    ++ generated_queries

/-- `pandas.DataFrame.rename(columns=mapping)` on one column name: the
mapped name when the dict has a key for it, else the name unchanged. -/
def rename_col (mapping : List (String × String)) (c : String) : String :=
  match mapping.lookup c with
  | Option.some n => n
  | Option.none => c

/-- `df.rename(columns=new_column_names)` (src/app.py line 133): relabels
columns, leaves the rows untouched. -/
def renamed_df (mapping : List (String × String)) (df : DataFrame) : DataFrame :=
  { columns := df.columns.map (rename_col mapping), rows := df.rows }

/-- The uniqueness gate and generation call (src/app.py lines 133-141 and
173-178): after renaming, generation proceeds only if
`len(set(renamed_df.columns)) == len(renamed_df.columns)`; otherwise
`st.stop()` blocks it (modelled as `none`). -/
def generate_after_rename (mapping : List (String × String)) (df : DataFrame)
    (table_name : String) (chunk_size : Nat) (use_ignore : Bool) : Option String :=
  let rdf := renamed_df mapping df
  if rdf.columns.Nodup then
    Option.some (generate_chunked_insert_queries rdf table_name chunk_size use_ignore)
  else Option.none

/-- Spec-side character table for the escaping pass, following the spec's
list: backslash, single quote, double quote, newline, carriage return map
to their two-character escapes; every other character is kept. -/
def escChar (c : Char) : List Char :=
  if c = '\\' then ['\\', '\\']
  else if c = squote then ['\\', squote]
  else if c = '"' then ['\\', '"']
  else if c = '\n' then ['\\', 'n']
  else if c = '\r' then ['\\', 'r']
  else [c]

/-- Spec-side escaping: a single left-to-right pass over the original
characters, replacing each by `escChar`. -/
def escape_one_pass : List Char → List Char
  | [] => []
  | c :: rest => escChar c ++ escape_one_pass rest

/-- Decoding table for the documented escape pairs: the character standing
after a backslash. -/
def decodeEsc (d : Char) : Char :=
  if d = '\\' then '\\'
  else if d = squote then squote
  else if d = '"' then '"'
  else if d = 'n' then '\n'
  else if d = 'r' then '\r'
  else d

/-- Decoder for the documented escape-sequence set: a backslash consumes
the next character through `decodeEsc`; other characters pass through. -/
def unescape_core : List Char → List Char
  | [] => []
  | [c] => [c]
  | c :: d :: rest =>
    if c = '\\' then decodeEsc d :: unescape_core rest
    else c :: unescape_core (d :: rest)

lemma pyReplace1_append (old : Char) (new a b : List Char) :
    pyReplace1 old new (a ++ b) = pyReplace1 old new a ++ pyReplace1 old new b := by
  induction a with
  | nil => simp [pyReplace1]
  | cons c cs ih => simp [pyReplace1, ih]

lemma escape_core_append (a b : List Char) :
    escape_core (a ++ b) = escape_core a ++ escape_core b := by
  simp [escape_core, pyReplace1_append]

lemma escape_core_singleton (c : Char) : escape_core [c] = escChar c := by
  by_cases h1 : c = '\\'
  · subst h1; rfl
  by_cases h2 : c = squote
  · subst h2; rfl
  by_cases h3 : c = '"'
  · subst h3; rfl
  by_cases h4 : c = '\n'
  · subst h4; rfl
  by_cases h5 : c = '\r'
  · subst h5; rfl
  simp [escape_core, pyReplace1, escChar, h1, h2, h3, h4, h5]

lemma escape_core_eq_one_pass (s : List Char) :
    escape_core s = escape_one_pass s := by
  induction s with
  | nil => rfl
  | cons c rest ih =>
    have h : escape_core (c :: rest) = escape_core [c] ++ escape_core rest := by
      rw [show c :: rest = [c] ++ rest from rfl, escape_core_append]
    rw [h, escape_core_singleton, ih]
    rfl

lemma unescape_cons_not_bs (c : Char) (h : c ≠ '\\') (l : List Char) :
    unescape_core (c :: l) = c :: unescape_core l := by
  cases l with
  | nil => rfl
  | cons d rest => simp [unescape_core, h]

lemma unescape_escape_one_pass (s : List Char) :
    unescape_core (escape_one_pass s) = s := by
  induction s with
  | nil => rfl
  | cons c rest ih =>
    have e : escape_one_pass (c :: rest) = escChar c ++ escape_one_pass rest := rfl
    rw [e]
    by_cases h1 : c = '\\'
    · subst h1
      rw [show escChar '\\' = ['\\', '\\'] from by decide]
      have hd : decodeEsc '\\' = '\\' := by decide
      simp [unescape_core, hd, ih]
    by_cases h2 : c = squote
    · subst h2
      rw [show escChar squote = ['\\', squote] from by decide]
      have hd : decodeEsc squote = squote := by decide
      simp [unescape_core, hd, ih]
    by_cases h3 : c = '"'
    · subst h3
      rw [show escChar '"' = ['\\', '"'] from by decide]
      have hd : decodeEsc '"' = '"' := by decide
      simp [unescape_core, hd, ih]
    by_cases h4 : c = '\n'
    · subst h4
      rw [show escChar '\n' = ['\\', 'n'] from by decide]
      have hd : decodeEsc 'n' = '\n' := by decide
      simp [unescape_core, hd, ih]
    by_cases h5 : c = '\r'
    · subst h5
      rw [show escChar '\r' = ['\\', 'r'] from by decide]
      have hd : decodeEsc 'r' = '\r' := by decide
      simp [unescape_core, hd, ih]
    rw [show escChar c = [c] from by simp [escChar, h1, h2, h3, h4, h5]]
    rw [List.singleton_append, unescape_cons_not_bs c h1, ih]

lemma unescape_escape_core (s : List Char) :
    unescape_core (escape_core s) = s := by
  rw [escape_core_eq_one_pass]
  exact unescape_escape_one_pass s

lemma escape_core_injective {s t : List Char}
    (h : escape_core s = escape_core t) : s = t := by
  have h2 := congrArg unescape_core h
  rwa [unescape_escape_core, unescape_escape_core] at h2

lemma chunksOf_nil (c : Nat) : chunksOf c ([] : List α) = [] := by
  rw [chunksOf]

lemma chunksOf_cons (c : Nat) (x : α) (xs : List α) :
    chunksOf c (x :: xs) = (x :: xs.take (c - 1)) :: chunksOf c (xs.drop (c - 1)) := by
  rw [chunksOf]

lemma chunksOf_flatten (c : Nat) : ∀ l : List α, (chunksOf c l).flatten = l
  | [] => by simp [chunksOf_nil]
  | x :: xs => by
    rw [chunksOf_cons]
    simp only [List.flatten_cons]
    rw [chunksOf_flatten c (xs.drop (c - 1))]
    rw [List.cons_append, List.take_append_drop]
termination_by l => l.length
decreasing_by simp [List.length_drop]; omega

lemma chunksOf_length (c : Nat) (hc : 1 ≤ c) :
    ∀ l : List α, (chunksOf c l).length = (l.length + c - 1) / c
  | [] => by
    rw [chunksOf_nil]
    simp only [List.length_nil]
    symm
    apply Nat.div_eq_of_lt
    omega
  | x :: xs => by
    rw [chunksOf_cons]
    simp only [List.length_cons]
    rw [chunksOf_length c hc (xs.drop (c - 1))]
    rw [List.length_drop]
    rcases Nat.lt_or_ge xs.length (c - 1) with h | h
    · have e1 : xs.length - (c - 1) = 0 := by omega
      rw [e1]
      have e2 : 0 + c - 1 = c - 1 := by omega
      rw [e2, Nat.div_eq_of_lt (by omega)]
      have e3 : xs.length + 1 + c - 1 = xs.length + c := by omega
      rw [e3, Nat.add_div_right _ (by omega), Nat.div_eq_of_lt (by omega)]
    · have e1 : xs.length - (c - 1) + c - 1 = xs.length := by omega
      rw [e1]
      have e3 : xs.length + 1 + c - 1 = xs.length + c := by omega
      rw [e3, Nat.add_div_right _ (by omega)]
termination_by l => l.length
decreasing_by simp [List.length_drop]; omega

lemma chunksOf_forall_ne_nil (c : Nat) :
    ∀ l : List α, ∀ ch ∈ chunksOf c l, ch ≠ []
  | [] => by simp [chunksOf_nil]
  | x :: xs => by
    rw [chunksOf_cons]
    intro ch hch
    rcases List.mem_cons.mp hch with h | h
    · subst h; exact List.cons_ne_nil _ _
    · exact chunksOf_forall_ne_nil c (xs.drop (c - 1)) ch h
termination_by l => l.length
decreasing_by simp [List.length_drop]; omega

lemma filterMap_some_of_forall {α β : Type} (f : α → Option β) (g : α → β)
    (l : List α) (h : ∀ a ∈ l, f a = Option.some (g a)) :
    l.filterMap f = l.map g := by
  induction l with
  | nil => rfl
  | cons x xs ih =>
    rw [List.filterMap_cons, h x (List.mem_cons_self x xs), List.map_cons,
      ih (fun a ha => h a (List.mem_cons_of_mem x ha))]

/-- Spec-side rendering of one row: `(v1, v2, ..., vN)` with each value
encoded in column order. -/
def spec_row_tuple (row : List PyVal) : String :=
  "(" ++ String.intercalate ", " (row.map format_sql_value) ++ ")"

/-- Spec-side statement shape for one chunk, following the spec's words:
`{keyword} \`{table_name}\` ({columns}) VALUES\n  {joined_rows};` with the
keyword chosen by `use_ignore`, the backtick-quoted comma-joined column
list, and row tuples joined by comma-newline-two-spaces. -/
def spec_statement (df : DataFrame) (table_name : String) (use_ignore : Bool)
    (chunk : List (List PyVal)) : String :=
  (if use_ignore then "INSERT IGNORE INTO" else "INSERT INTO")
    ++ " `" ++ table_name ++ "` ("
    ++ String.intercalate ", " (df.columns.map (fun col => "`" ++ col ++ "`"))
    ++ ") VALUES\n  "
    ++ String.intercalate ",\n  " (chunk.map spec_row_tuple) ++ ";"

lemma chunk_queries_eq_map (df : DataFrame) (tn : String) (c : Nat) (ui : Bool) :
    chunk_queries df tn c ui = (chunksOf c df.rows).map (spec_statement df tn ui) := by
  simp only [chunk_queries]
  apply filterMap_some_of_forall
  intro ch hch
  have hne := chunksOf_forall_ne_nil c df.rows ch hch
  have hemp : (ch.map (fun row =>
      "(" ++ String.intercalate ", " (row.map format_sql_value) ++ ")")).isEmpty = false := by
    cases ch with
    | nil => exact absurd rfl hne
    | cons a b => rfl
  rw [hemp]
  simp only [Bool.false_eq_true, if_false, spec_statement, spec_row_tuple]
  rfl

lemma escape_one_pass_id : ∀ l : List Char, (∀ c ∈ l, escChar c = [c]) →
    escape_one_pass l = l
  | [], _ => rfl
  | c :: rest, hl => by
    show escChar c ++ escape_one_pass rest = c :: rest
    rw [hl c (List.mem_cons_self c rest),
      escape_one_pass_id rest (fun a ha => hl a (List.mem_cons_of_mem c ha))]
    rfl

/-- C1: claim — for every boolean input, `format_sql_value` returns the
unquoted literal `TRUE` or `FALSE` because the boolean category is checked
before the generic numeric category.  The code checks the numeric
`isinstance` first, and Python's native `bool` is a subclass of `int`, so
a native boolean takes the numeric branch and is rendered by `str()` as
`True`/`False`; only numpy's `np.bool_` (not an `int` subclass) reaches
the boolean branch and yields `TRUE`/`FALSE`. -/
theorem bool_hits_numeric_branch_first :
    format_sql_value (PyVal.bool true) = "True"
    ∧ format_sql_value (PyVal.bool false) = "False"
    ∧ format_sql_value (PyVal.npBool true) = "TRUE"
    ∧ format_sql_value (PyVal.npBool false) = "FALSE"
    ∧ format_sql_value (PyVal.bool true) ≠ "TRUE" := by
  refine ⟨rfl, rfl, rfl, rfl, by decide⟩

/-- C2: for every string containing one of the five special characters,
the encoder returns a single-quoted string whose content, decoded with the
documented escape-sequence set, losslessly recovers the original text;
equivalently the escaping is injective. -/
theorem escape_roundtrip (s : String)
    (h : ∃ c ∈ s.data, c ∈ (['\\', squote, '"', '\n', '\r'] : List Char)) :
    format_sql_value (PyVal.str s) = "'" ++ String.mk (escape_core s.data) ++ "'"
    ∧ unescape_core (escape_core s.data) = s.data
    ∧ ∀ t : String, escape_core s.data = escape_core t.data → s = t := by
  refine ⟨rfl, unescape_escape_core s.data, ?_⟩
  intro t ht
  have hd := escape_core_injective ht
  cases s
  cases t
  exact congrArg String.mk hd

/-- Witness for C2 at the concrete input `a'b` (which contains a single
quote). -/
theorem escape_roundtrip_witness :
    unescape_core (escape_core ("a'b".data)) = "a'b".data
    ∧ format_sql_value (PyVal.str "a'b") = "'a\\'b'" := by
  have h : ∃ c ∈ ("a'b".data), c ∈ (['\\', squote, '"', '\n', '\r'] : List Char) := by
    decide
  refine ⟨(escape_roundtrip "a'b" h).2.1, ?_⟩
  rw [(escape_roundtrip "a'b" h).1]
  decide

/-- C3: for chunk size `C ≥ 1` the generator emits exactly `ceil(R / C)`
statements (`0`, hence the empty string, when `R = 0`), and the
concatenation of the chunks in emitted order is the original row sequence
in its original order. -/
theorem chunk_count_and_row_order (df : DataFrame) (tn : String) (ui : Bool)
    (c : Nat) (hc : 1 ≤ c) :
    (chunk_queries df tn c ui).length = (df.rows.length + c - 1) / c
    ∧ (chunksOf c df.rows).flatten = df.rows
    ∧ (df.rows = [] → generate_chunked_insert_queries df tn c ui = "") := by
  refine ⟨?_, chunksOf_flatten c df.rows, ?_⟩
  · rw [chunk_queries_eq_map, List.length_map]
    exact chunksOf_length c hc df.rows
  · intro h
    unfold generate_chunked_insert_queries
    rw [chunk_queries_eq_map, h, chunksOf_nil]
    rfl

/-- Witness for C3: a 3-row table with chunk size 2 yields
`ceil(3 / 2) = 2` statements and the chunks concatenate to the rows. -/
theorem chunk_count_witness :
    (chunk_queries (DataFrame.mk ["id"] [[PyVal.int 1], [PyVal.int 2], [PyVal.int 3]])
      "t" 2 false).length = 2
    ∧ (chunksOf 2 [[PyVal.int 1], [PyVal.int 2], [PyVal.int 3]]).flatten
        = [[PyVal.int 1], [PyVal.int 2], [PyVal.int 3]] := by
  have h := chunk_count_and_row_order
    (DataFrame.mk ["id"] [[PyVal.int 1], [PyVal.int 2], [PyVal.int 3]]) "t" false 2
    (by decide)
  exact ⟨h.1.trans (by decide), h.2.1⟩

/-- C4: for every non-empty table, the output is the chunk statements of
the exact spec shape
`{keyword} ~{table_name}~ ({columns}) VALUES\n  {joined_rows};` (backtick
quotes), with the keyword chosen by `use_ignore`, the same column list in
every statement, row tuples joined by comma-newline-two-spaces, and
consecutive statements joined by a blank line, a comment rule, and a blank
line. -/
theorem statement_shape (df : DataFrame) (tn : String) (c : Nat) (ui : Bool)
    (_h : df.rows ≠ []) :
    generate_chunked_insert_queries df tn c ui =
      String.intercalate "\n\n-- -- -- -- -- -- -- -- -- --\n\n"
        ((chunksOf c df.rows).map (spec_statement df tn ui)) := by
  unfold generate_chunked_insert_queries
  rw [chunk_queries_eq_map]

/-- Witness for C4 at a concrete one-row table with `use_ignore` set. -/
theorem statement_shape_witness :
    generate_chunked_insert_queries (DataFrame.mk ["a"] [[PyVal.int 5]]) "t" 1 true
      = "INSERT IGNORE INTO `t` (`a`) VALUES\n  (5);" := by
  have h := statement_shape (DataFrame.mk ["a"] [[PyVal.int 5]]) "t" 1 true
    (List.cons_ne_nil _ _)
  rw [h, chunksOf_cons]
  rw [show List.drop (1 - 1) ([] : List (List PyVal)) = [] from rfl]
  rw [chunksOf_nil]
  decide

/-- C5: the five sequential replacements of `escape_mysql`, in source
order (backslash, single quote, double quote, newline, carriage return),
never re-escape output of a prior step: their composition equals a single
left-to-right pass over the original characters. -/
theorem escape_equals_single_pass (s : String) :
    escape_mysql (PyVal.str s) = String.mk (escape_one_pass s.data)
    ∧ escape_core s.data = escape_one_pass s.data := by
  refine ⟨?_, escape_core_eq_one_pass s.data⟩
  show String.mk (escape_core s.data) = _
  rw [escape_core_eq_one_pass]

/-- C6: the encoder maps a Null scalar to exactly the unquoted
four-character literal `NULL`. -/
theorem null_encodes_NULL :
    format_sql_value PyVal.none = "NULL"
    ∧ (format_sql_value PyVal.none).length = 4 := by
  refine ⟨rfl, by decide⟩

/-- C7: when the truncate flag is set, exactly one
`TRUNCATE TABLE ~{table_name}~;` statement plus blank lines is prepended
by string concatenation, for every table including zero-row tables; when
unset, the output is the generator's output unchanged. -/
theorem truncate_prepend (tn g : String) (cols : List String) (c : Nat) (ui : Bool) :
    final_query_output true tn g = "TRUNCATE TABLE `" ++ tn ++ "`;\n\n" ++ g
    ∧ final_query_output false tn g = g
    ∧ final_query_output true tn
        (generate_chunked_insert_queries (DataFrame.mk cols []) tn c ui)
        = "TRUNCATE TABLE `" ++ tn ++ "`;\n\n" := by
  refine ⟨rfl, rfl, ?_⟩
  have hz : generate_chunked_insert_queries (DataFrame.mk cols []) tn c ui = "" := by
    unfold generate_chunked_insert_queries
    rw [chunk_queries_eq_map]
    have hr : (DataFrame.mk cols ([] : List (List PyVal))).rows = [] := rfl
    rw [hr, chunksOf_nil]
    rfl
  rw [hz]
  simp [final_query_output]

/-- C8: a rename mapping that collides two distinct original columns onto
one new name makes the renamed column list non-unique, so the uniqueness
gate blocks generation; renaming changes only the column labels, leaving
row values, row order, and the rendered row tuples unchanged, and when the
renamed names are unique generation proceeds on the relabeled table. -/
theorem rename_collision_rejected (m : List (String × String)) (df : DataFrame)
    (tn : String) (c : Nat) (ui : Bool) :
    (∀ c₁ ∈ df.columns, ∀ c₂ ∈ df.columns, c₁ ≠ c₂ →
        rename_col m c₁ = rename_col m c₂ →
        generate_after_rename m df tn c ui = Option.none)
    ∧ (renamed_df m df).rows = df.rows
    ∧ ((renamed_df m df).columns.Nodup →
        generate_after_rename m df tn c ui =
          Option.some (generate_chunked_insert_queries (renamed_df m df) tn c ui))
    ∧ (chunksOf c (renamed_df m df).rows).map (List.map spec_row_tuple)
        = (chunksOf c df.rows).map (List.map spec_row_tuple) := by
  refine ⟨?_, rfl, ?_, rfl⟩
  · intro c₁ h₁ c₂ h₂ hne heq
    have hnd : ¬ (renamed_df m df).columns.Nodup := by
      intro hnd
      have hmap : (df.columns.map (rename_col m)).Nodup := hnd
      exact hne (List.inj_on_of_nodup_map hmap h₁ h₂ heq)
    simp only [generate_after_rename]
    rw [if_neg hnd]
  · intro hnd
    simp only [generate_after_rename]
    rw [if_pos hnd]

/-- Witness for C8: mapping both `a` and `b` to `x` blocks generation;
the renamed table keeps its rows. -/
theorem rename_collision_witness :
    generate_after_rename [("a", "x"), ("b", "x")]
        (DataFrame.mk ["a", "b"] [[PyVal.int 1, PyVal.int 2]]) "t" 1 false
      = Option.none
    ∧ (renamed_df [("a", "x"), ("b", "x")]
        (DataFrame.mk ["a", "b"] [[PyVal.int 1, PyVal.int 2]])).rows
      = [[PyVal.int 1, PyVal.int 2]] := by
  have h := rename_collision_rejected [("a", "x"), ("b", "x")]
    (DataFrame.mk ["a", "b"] [[PyVal.int 1, PyVal.int 2]]) "t" 1 false
  exact ⟨h.1 "a" (by decide) "b" (by decide) (by decide) (by decide), h.2.1⟩

/-- C9: a floating-point NaN is recognized by the initial `pd.isnull`
check, so the encoder itself returns `NULL` and never the unquoted
numeric literal `nan`. -/
theorem nan_encodes_NULL :
    format_sql_value PyVal.nan = "NULL"
    ∧ format_sql_value PyVal.nan ≠ "nan"
    ∧ pd_isnull PyVal.nan = true := by
  refine ⟨rfl, by decide, rfl⟩

/-- C10: on a string free of the five special characters, `escape_mysql`
is the identity. -/
theorem escape_identity_on_plain (s : String)
    (h : ∀ c ∈ s.data, c ∉ (['\\', squote, '"', '\n', '\r'] : List Char)) :
    escape_mysql (PyVal.str s) = s := by
  have hall : ∀ c ∈ s.data, escChar c = [c] := by
    intro c hc
    have hni := h c hc
    simp only [List.mem_cons, List.not_mem_nil, or_false, not_or] at hni
    obtain ⟨h1, h2, h3, h4, h5⟩ := hni
    simp [escChar, h1, h2, h3, h4, h5]
  show String.mk (escape_core s.data) = s
  rw [escape_core_eq_one_pass, escape_one_pass_id s.data hall]

/-- Witness for C10 at the concrete input `hello world`. -/
theorem escape_identity_witness :
    escape_mysql (PyVal.str "hello world") = "hello world" := by
  apply escape_identity_on_plain
  decide
